import Mathlib

/-!
Shallow embedding of `src/gi/pygi-async.c` (the `gi._gi.Async` future type of
pygobject) and verification of its specified behaviour.

Modelling conventions:
* A Python object is a `PyVal`; object identity is modelled by the value itself
  (opaque objects carry a numeric id).
* A C function that returns `PyObject*` or `NULL`-with-error-set is modelled as
  a `PyResult` (`ok` / `raised`), where `raised` carries the pair set by
  `PyErr_SetObject` / `PyErr_SetString` (exception class and value).
* External collaborators (the event loop, `PyObject_IsInstance`,
  `PyObject_CallObject`, rich comparison, exception-class instantiation, the
  success of a `loop.call_soon` invocation) are oracles passed as parameters.
* The `PY_VERSION_HEX >= 0x03070000` branches (context support) are the ones
  modelled, matching a modern CPython.
* Reference counting (`Py_INCREF`/`Py_DECREF`/`Py_CLEAR`) is not modelled
  except where it changes observable behaviour: in `call_soon` the
  `Py_CLEAR (kwargs)` placed before `PyObject_Call` makes the call happen with
  `kwargs == NULL`, which the embedding reproduces.
-/

/-- A Python value / object.  `obj n` is an opaque object with identity `n`;
`excClass` an exception class; `excInst cls arg` an exception instance of class
`cls` constructed from `arg` (`arg = PyVal.none` when constructed without
arguments). -/
inductive PyVal where
  | none
  | int (n : Int)
  | str (s : String)
  | obj (id : Nat)
  | excClass (name : String)
  | excInst (cls : String) (arg : PyVal)
deriving DecidableEq

/-- A pending Python error as set by `PyErr_SetObject (cls, val)` or
`PyErr_SetString (cls, msg)`. -/
structure PyErr where
  cls : PyVal
  val : PyVal
deriving DecidableEq

/-- Result of a C-API function returning `PyObject*`: either a value, or `NULL`
with the error indicator set. -/
inductive PyResult where
  | ok (v : PyVal)
  | raised (e : PyErr)
deriving DecidableEq

/-- The `asyncio.exceptions.InvalidStateError` class (module global
`asyncio_InvalidStateError` in the C file). -/
def asyncio_InvalidStateError : PyVal := PyVal.excClass "InvalidStateError"

/-- The builtin `TypeError` class (`PyExc_TypeError`). -/
def PyExc_TypeError : PyVal := PyVal.excClass "TypeError"

/-- The builtin `StopIteration` class (`PyExc_StopIteration`). -/
def PyExc_StopIteration : PyVal := PyVal.excClass "StopIteration"

/-- Model of `PyExceptionInstance_Class`: the class of an exception instance.
For values the embedding does not track a class for, it returns the base
exception class. -/
def PyExceptionInstance_Class : PyVal → PyVal
  | PyVal.excInst cls _ => PyVal.excClass cls
  | _ => PyVal.excClass "BaseException"

/-- Model of the `GICallableInfo` describing the finish function; the
introspection layer is external, so it is reduced to the data the embedded code
observes: its full name. -/
structure PyGICallableInfo where
  fullname : String
deriving DecidableEq

/-- Model of `_pygi_g_base_info_get_fullname`. -/
def _pygi_g_base_info_get_fullname (info : PyGICallableInfo) : String :=
  info.fullname

/-- `PyGIAsyncCallback` (from `pygi-async.h`): a registered done-callback and
its captured context. -/
structure PyGIAsyncCallback where
  func : PyVal
  context : PyVal
deriving DecidableEq

/-- The `PyGIAsync` object state.  `result`/`exception` are the `NULL`-or-set
pointer fields; `callbacks` is the `GArray*` (`none` models a `NULL` array). -/
structure PyGIAsync where
  finish_func : PyGICallableInfo
  cancellable : PyVal
  loop : PyVal
  result : Option PyVal
  exception : Option PyVal
  callbacks : Option (List PyGIAsyncCallback)
  _asyncio_future_blocking : Bool
deriving DecidableEq

/-- Model of `PyContext_CopyCurrent`: a snapshot of the ambient current
context (the copy of a context is the same snapshot value). -/
def PyContext_CopyCurrent (current : PyVal) : PyVal := current

/-- `async_repr` (src/gi/pygi-async.c:42-51): formats
`"gi.Async(finish_func=%s, done=%s)"` with the finish function's full name and
`"True"`/`"False"` for `self->result || self->exception`. -/
def async_repr (self : PyGIAsync) : String :=
  "gi.Async(finish_func=" ++ _pygi_g_base_info_get_fullname self.finish_func ++
    ", done=" ++ (if self.result.isSome || self.exception.isSome then "True" else "False") ++ ")"

/-- `async_done` (src/gi/pygi-async.c:64-68): `self->result || self->exception`. -/
def async_done (self : PyGIAsync) : Bool :=
  self.result.isSome || self.exception.isSome

/-- `async_result` (src/gi/pygi-async.c:70-85).  Pending (`!result &&
!exception`) raises `InvalidStateError`; a set `result` is returned; otherwise
the stored exception is re-raised via
`PyErr_SetObject (PyExceptionInstance_Class (exc), exc)`. -/
def async_result (self : PyGIAsync) : PyResult :=
  match self.result, self.exception with
  | none, none =>
      .raised ⟨asyncio_InvalidStateError, PyVal.str "Async task is still running!"⟩
  | some r, _ => .ok r
  | none, some e => .raised ⟨PyExceptionInstance_Class e, e⟩

/-- `async_exception` (src/gi/pygi-async.c:87-104).  Pending raises
`InvalidStateError`; otherwise returns the stored exception if set, else
`Py_None`. -/
def async_exception (self : PyGIAsync) : PyResult :=
  match self.result, self.exception with
  | none, none =>
      .raised ⟨asyncio_InvalidStateError, PyVal.str "Async task is still running!"⟩
  | _, some e => .ok e
  | some _, none => .ok PyVal.none

/-- The invocation actually handed to the event loop's `call_soon` by
`PyObject_Call (call_soon, args, kwargs)`: the loop whose `call_soon` attribute
was fetched, the positional arguments `(cb->func, self)`, and the keyword
dictionary (`none` models `kwargs == NULL`). -/
structure CallSoonInvocation where
  loop : PyVal
  func_arg : PyVal
  self_arg : PyGIAsync
  kwargs : Option (List (String × PyVal))
deriving DecidableEq

/-- `call_soon` (src/gi/pygi-async.c:106-129).  The C code fetches
`loop.call_soon`, builds `args = (cb->func, self)`, builds a kwargs dict
`{"context": cb->context}` — and then runs `Py_CLEAR (kwargs)` *before*
`PyObject_Call`, so the call is made with `kwargs == NULL`.  The returned
record is the invocation as actually handed to the scheduler. -/
def call_soon (self : PyGIAsync) (cb : PyGIAsyncCallback) : CallSoonInvocation :=
  let kwargs : Option (List (String × PyVal)) := some [("context", cb.context)]
  -- Py_CLEAR (kwargs) is executed before PyObject_Call (line 121), so the
  -- dictionary built above is gone and kwargs is NULL at call time:
  let kwargs : Option (List (String × PyVal)) := none
  { loop := self.loop, func_arg := cb.func, self_arg := self, kwargs := kwargs }

/-- Outcome of `async_add_done_callback`: on an already-done future the
callback is handed to `call_soon` (returning `None`, or propagating the
scheduling error); on a pending future it is appended to the registry. -/
inductive AddDoneOutcome where
  | scheduled (inv : CallSoonInvocation)
  | sched_error (inv : CallSoonInvocation)
  | appended
deriving DecidableEq

/-- The callback record captured at registration time by
`async_add_done_callback` (src/gi/pygi-async.c:143-147): the supplied
`context` keyword, or a copy of the caller's current context when none was
given. -/
def captured_callback (current_context : PyVal) (func : PyVal)
    (context : Option PyVal) : PyGIAsyncCallback :=
  { func := func,
    context :=
      match context with
      | none => PyContext_CopyCurrent current_context
      | some c => c }

/-- `async_add_done_callback` (src/gi/pygi-async.c:131-176), modelling the
`PY_VERSION_HEX >= 0x03070000` branch.  `current_context` is the ambient
context used by `PyContext_CopyCurrent` when no `context` keyword is given;
`schedOk` is the oracle for whether the external `loop.call_soon` invocation
succeeds. -/
def async_add_done_callback (schedOk : PyGIAsyncCallback → Bool) (current_context : PyVal)
    (self : PyGIAsync) (func : PyVal) (context : Option PyVal) :
    PyGIAsync × AddDoneOutcome :=
  let callback : PyGIAsyncCallback := captured_callback current_context func context
  if self.result.isSome || self.exception.isSome then
    let inv := call_soon self callback
    if schedOk callback then (self, .scheduled inv) else (self, .sched_error inv)
  else
    match self.callbacks with
    | none => ({ self with callbacks := some [callback] }, .appended)
    | some cbs => ({ self with callbacks := some (cbs ++ [callback]) }, .appended)

/-- The scan performed by the `while` loop of `async_remove_done_callback`
(src/gi/pygi-async.c:184-198): an entry is removed iff
`PyObject_RichCompareBool (cb->func, fn, Py_EQ) == 1`.  `richcmp` is the
oracle for the rich comparison (`1` equal, `0` not equal, `-1` comparison
raised).  Returns the remaining entries, the `removed` count, and whether a
comparison left an error pending (a `-1` result sets the error indicator,
which the C code neither checks nor clears). -/
def remove_scan (richcmp : PyVal → PyVal → Int) (fn : PyVal) :
    List PyGIAsyncCallback → List PyGIAsyncCallback × Int × Bool
  | [] => ([], 0, false)
  | cb :: rest =>
    let r := richcmp cb.func fn
    let rec_result := remove_scan richcmp fn rest
    if r = 1 then
      (rec_result.1, rec_result.2.1 + 1, rec_result.2.2)
    else
      (cb :: rec_result.1, rec_result.2.1, if r = -1 then true else rec_result.2.2)

/-- `async_remove_done_callback` (src/gi/pygi-async.c:178-201).  With a `NULL`
callback array the loop body never runs and `0` is returned; otherwise the
array is scanned as in `remove_scan`.  The function always returns
`PyLong_FromSsize_t (removed)` (a normal, non-`NULL` return); the third
component records whether a failed comparison left the error indicator set. -/
def async_remove_done_callback (richcmp : PyVal → PyVal → Int)
    (self : PyGIAsync) (fn : PyVal) : PyGIAsync × Int × Bool :=
  match self.callbacks with
  | none => (self, 0, false)
  | some cbs =>
    let r := remove_scan richcmp fn cbs
    ({ self with callbacks := some r.1 }, r.2.1, r.2.2)

/-- The external runtime collaborators used by `async_init`:
`PyObject_IsInstance (x, Gio.Cancellable)` (with the error pending when it
returns `-1`), `PyObject_CallObject`, the resolved `Gio.Cancellable` class
(`cancellable_info`), and the result of `asyncio.events.get_event_loop ()`. -/
structure PyRuntime where
  isinst_cancellable : PyVal → Int
  isinst_pending : PyErr
  callObject : PyVal → List PyVal → PyVal
  cancellable_info : PyVal
  get_event_loop : Except PyErr PyVal

/-- `async_init` (src/gi/pygi-async.c:203-251), starting after argument
parsing (`finish_func` and the optional keyword-only `cancellable` already
extracted) and after the lazy resolution of `Gio.Cancellable`.  A supplied
cancellable is validated with `PyObject_IsInstance`: `-1` propagates the
pending error, `0` raises `TypeError`; with none supplied,
`PyObject_CallObject (cancellable_info, NULL)` constructs a default one with
no arguments.  The loop is then captured from `asyncio_get_event_loop`.
The freshly `tp_alloc`-ed object has all other fields zeroed. -/
def async_init (rt : PyRuntime) (finish_func : PyGICallableInfo)
    (cancellable : Option PyVal) : Except PyErr PyGIAsync :=
  let cancellable_res : Except PyErr PyVal :=
    match cancellable with
    | some c =>
      let res := rt.isinst_cancellable c
      if res = -1 then .error rt.isinst_pending
      else if res = 0 then
        .error ⟨PyExc_TypeError, PyVal.str "cancellable argument needs to be of type Gio.Cancellable"⟩
      else .ok c
    | none => .ok (rt.callObject rt.cancellable_info [])
  match cancellable_res with
  | .error e => .error e
  | .ok canc =>
    match rt.get_event_loop with
    | .error e => .error e
    | .ok loop =>
      .ok { finish_func := finish_func, cancellable := canc, loop := loop,
            result := none, exception := none, callbacks := none,
            _asyncio_future_blocking := false }

/-- `async_await` (src/gi/pygi-async.c:263-275): if not done, set
`_asyncio_future_blocking = TRUE`; return `self` itself as the iterator.  The
first component is the future's state after the call, the second the returned
iterator (the same object). -/
def async_await (self : PyGIAsync) : PyGIAsync × PyGIAsync :=
  let self' :=
    if self.result.isNone && self.exception.isNone then
      { self with _asyncio_future_blocking := true }
    else self
  (self', self')

/-- Result of one `tp_iternext` step: either an object is returned (the
iteration yields it and continues) or `NULL` is returned with an error set
(`StopIteration` carrying the value, or the stored exception). -/
inductive IterNextResult where
  | yield (v : PyGIAsync)
  | raised (e : PyErr)
deriving DecidableEq

/-- `async_iternext` (src/gi/pygi-async.c:277-292): while not done, return
`self` again; once done, raise the stored exception if set, else
`PyErr_SetObject (PyExc_StopIteration, self->result)`. -/
def async_iternext (self : PyGIAsync) : IterNextResult :=
  match self.result, self.exception with
  | none, none => .yield self
  | _, some e => .raised ⟨PyExceptionInstance_Class e, e⟩
  | some r, none => .raised ⟨PyExc_StopIteration, r⟩

/-- The exception state fetched by `PyErr_Fetch` after the finish-function
invocation raised: the exception class (`exc`) and the (possibly `NULL`,
possibly unnormalized) value. -/
structure FetchedErr where
  exc : PyVal
  value : Option PyVal
deriving DecidableEq

/-- The fallback stored when materializing the finisher's exception fails:
`PyObject_CallFunction (PyExc_TypeError, "Invalid exception from _finish
function call!")` (src/gi/pygi-async.c:363), modelled as the `TypeError`
instance it is meant to construct (the C code `g_assert`s it is non-`NULL`). -/
def invalid_exc_fallback : PyVal :=
  PyVal.excInst "TypeError" (PyVal.str "Invalid exception from _finish function call!")

/-- Lines 357-360 of src/gi/pygi-async.c: materialize an exception instance
from the fetched error: with no value, `PyObject_CallFunction (exc, "")`
(instantiate the class with no arguments); with a value,
`PyObject_CallFunction (exc, "O", value)`.  `callExc` is the oracle for these
calls (`none` models the call failing). -/
def finish_exc_value (callExc : PyVal → List PyVal → Option PyVal)
    (fe : FetchedErr) : Option PyVal :=
  match fe.value with
  | none => callExc fe.exc []
  | some v => callExc fe.exc [v]

/-- The `for` loop of `pygi_async_finish_cb` (src/gi/pygi-async.c:377-395)
draining the callback array.  The `Bool` argument is whether the error
indicator is set when the iteration is entered (`PyErr_Occurred`).  Per entry:
if no error is pending, `call_soon` is attempted; on failure (`schedOk cb =
false`) the error is printed with `PyErr_PrintEx (FALSE)`, which reports it
*and clears the error indicator*, so the next iteration again sees
`!PyErr_Occurred ()`.  If an error is pending on entry it is never cleared, so
every entry is skipped.  Either way the entry's references are released.
Returns the invocations handed to the scheduler and the entries whose
scheduling failure was reported. -/
def drain_callbacks (schedOk : PyGIAsyncCallback → Bool) (self : PyGIAsync) :
    Bool → List PyGIAsyncCallback → List CallSoonInvocation × List PyGIAsyncCallback
  | _, [] => ([], [])
  | errPending, cb :: rest =>
    if errPending then
      drain_callbacks schedOk self errPending rest
    else if schedOk cb then
      let r := drain_callbacks schedOk self false rest
      (call_soon self cb :: r.1, r.2)
    else
      -- PyErr_PrintEx (FALSE) reports the failure and clears the indicator
      let r := drain_callbacks schedOk self false rest
      (r.1, cb :: r.2)

/-- `pygi_async_finish_cb` (src/gi/pygi-async.c:318-402), modelling the
initialized-runtime path (the `!Py_IsInitialized ()` guard at line 331 returns
before touching any state).  `finish_outcome` is the result of
`_wrap_g_callable_info_invoke` on the finish function: `ok ret`, or `error fe`
when `PyErr_Occurred ()` with `fe` the fetched error.  On error, a concrete
exception instance is materialized (falling back to `invalid_exc_fallback`,
in which case the error from the failed instantiation is still pending when
the drain loop is entered); on success `self->result = ret`.  Then the
callback array is drained and freed (`self->callbacks = NULL`).  Returns the
final state, the scheduled invocations and the reported scheduling
failures. -/
def pygi_async_finish_cb (callExc : PyVal → List PyVal → Option PyVal)
    (schedOk : PyGIAsyncCallback → Bool)
    (finish_outcome : Except FetchedErr PyVal) (self : PyGIAsync) :
    PyGIAsync × List CallSoonInvocation × List PyGIAsyncCallback :=
  let staged : PyGIAsync × Bool :=
    match finish_outcome with
    | .ok ret => ({ self with result := some ret }, false)
    | .error fe =>
      match finish_exc_value callExc fe with
      | some exc_val => ({ self with exception := some exc_val }, false)
      | none => ({ self with exception := some invalid_exc_fallback }, true)
  let drained :=
    match staged.1.callbacks with
    | none => ([], [])
    | some cbs => drain_callbacks schedOk staged.1 staged.2 cbs
  ({ staged.1 with callbacks := none }, drained.1, drained.2)

/-- An instantiation oracle that always succeeds: calling an exception class
builds an instance of it (used for concrete evaluations). -/
def callExc0 : PyVal → List PyVal → Option PyVal
  | PyVal.excClass n, [] => some (PyVal.excInst n PyVal.none)
  | PyVal.excClass n, [v] => some (PyVal.excInst n v)
  | _, _ => Option.none

/-- An instantiation oracle that always fails (used for concrete evaluations
of the fallback path). -/
def callExcFail : PyVal → List PyVal → Option PyVal :=
  fun _ _ => Option.none

/-- A scheduling oracle under which every `call_soon` invocation succeeds. -/
def schedOkAll : PyGIAsyncCallback → Bool := fun _ => true

/-- Concrete callback whose scheduling fails under `c1schedOk`. -/
def c1cb1 : PyGIAsyncCallback := ⟨PyVal.obj 1, PyVal.obj 11⟩

/-- Concrete callback whose scheduling succeeds under `c1schedOk`. -/
def c1cb2 : PyGIAsyncCallback := ⟨PyVal.obj 2, PyVal.obj 12⟩

/-- Scheduling oracle failing exactly on `c1cb1`. -/
def c1schedOk : PyGIAsyncCallback → Bool :=
  fun cb => if cb.func = PyVal.obj 1 then false else true

/-- A pending future with two registered callbacks. -/
def c1self : PyGIAsync :=
  { finish_func := ⟨"Gio.Task.finish"⟩, cancellable := PyVal.obj 0,
    loop := PyVal.obj 60, result := none, exception := none,
    callbacks := some [c1cb1, c1cb2], _asyncio_future_blocking := false }

/-- An already-resolved future with no registered callbacks. -/
def c4self : PyGIAsync :=
  { finish_func := ⟨"Gio.Task.finish"⟩, cancellable := PyVal.obj 0,
    loop := PyVal.obj 60, result := some (PyVal.int 7), exception := none,
    callbacks := none, _asyncio_future_blocking := false }

/-- A pending future with an empty state (used in concrete evaluations). -/
def pendingSelf : PyGIAsync :=
  { finish_func := ⟨"Gio.File.copy_finish"⟩, cancellable := PyVal.obj 0,
    loop := PyVal.obj 60, result := none, exception := none,
    callbacks := none, _asyncio_future_blocking := false }

/-- A future resolved with the value `42`. -/
def resolvedSelf : PyGIAsync :=
  { pendingSelf with result := some (PyVal.int 42) }

/-- A future rejected with a `ValueError ("bad")` instance. -/
def rejectedSelf : PyGIAsync :=
  { pendingSelf with exception := some (PyVal.excInst "ValueError" (PyVal.str "bad")) }

/-- A concrete runtime for `async_init` evaluations: only `obj 0` counts as a
`Gio.Cancellable`, constructing the default cancellable yields `obj 100`, and
the event loop is `obj 60`. -/
def rt0 : PyRuntime :=
  { isinst_cancellable := fun v => if v = PyVal.obj 0 then 1 else 0,
    isinst_pending := ⟨PyVal.excClass "RuntimeError", PyVal.none⟩,
    callObject := fun _ _ => PyVal.obj 100,
    cancellable_info := PyVal.obj 50,
    get_event_loop := .ok (PyVal.obj 60) }

/-- A rich-comparison oracle: plain value equality, never raising. -/
def richcmpEq : PyVal → PyVal → Int :=
  fun a b => if a = b then 1 else 0

/-- A rich-comparison oracle that raises when comparing `obj 3` with anything
and otherwise decides value equality. -/
def richcmpRaising : PyVal → PyVal → Int :=
  fun a b => if a = PyVal.obj 3 then -1 else if a = b then 1 else 0

/-- A pending future with three registered callbacks (`obj 3`'s comparison
raises under `richcmpRaising`; `obj 4` occurs twice). -/
def c6self : PyGIAsync :=
  { pendingSelf with
      callbacks := some [⟨PyVal.obj 4, PyVal.obj 14⟩, ⟨PyVal.obj 3, PyVal.obj 13⟩,
                         ⟨PyVal.obj 4, PyVal.obj 15⟩] }

/-- C3: for every future: while pending, every call to `result ()` or
`exception ()` fails with `InvalidStateError`; once resolved with value `V`,
`result ()` returns `V` and `exception ()` returns `Py_None` (the non-error
sentinel); once rejected with error `E`, `result ()` re-raises an error whose
identity equals `E` (the raised value is `E` itself) and `exception ()`
returns `E`.  Repeatability holds because the accessors are pure functions of
the state. -/
theorem result_exception_state_protocol (self : PyGIAsync) :
    (self.result = none → self.exception = none →
      async_result self =
        .raised ⟨asyncio_InvalidStateError, PyVal.str "Async task is still running!"⟩ ∧
      async_exception self =
        .raised ⟨asyncio_InvalidStateError, PyVal.str "Async task is still running!"⟩) ∧
    (∀ v, self.result = some v → self.exception = none →
      async_result self = .ok v ∧ async_exception self = .ok PyVal.none) ∧
    (∀ e, self.result = none → self.exception = some e →
      async_result self = .raised ⟨PyExceptionInstance_Class e, e⟩ ∧
      async_exception self = .ok e) := by
  refine ⟨?_, ?_, ?_⟩
  · intro h1 h2
    simp [async_result, async_exception, h1, h2]
  · intro v h1 h2
    simp [async_result, async_exception, h1, h2]
  · intro e h1 h2
    simp [async_result, async_exception, h1, h2]

/-- Witness for C3 at concrete pending, resolved and rejected futures. -/
theorem result_exception_state_protocol_witness :
    async_result pendingSelf =
      .raised ⟨asyncio_InvalidStateError, PyVal.str "Async task is still running!"⟩ ∧
    async_result resolvedSelf = .ok (PyVal.int 42) ∧
    async_exception resolvedSelf = .ok PyVal.none ∧
    async_exception rejectedSelf = .ok (PyVal.excInst "ValueError" (PyVal.str "bad")) :=
  ⟨((result_exception_state_protocol pendingSelf).1 rfl rfl).1,
   ((result_exception_state_protocol resolvedSelf).2.1 (PyVal.int 42) rfl rfl).1,
   ((result_exception_state_protocol resolvedSelf).2.1 (PyVal.int 42) rfl rfl).2,
   ((result_exception_state_protocol rejectedSelf).2.2
      (PyVal.excInst "ValueError" (PyVal.str "bad")) rfl rfl).2⟩

/-- C7: `__await__` sets `_asyncio_future_blocking` to true when the future is
not yet done and returns the future itself as the iterator (when done it
returns itself unchanged); each `__next__` step yields the future itself while
it is not done; once done it raises `StopIteration` carrying the resolved
value on success, or re-raises the stored error (the raised value is the
stored error itself) on failure. -/
theorem await_protocol_spec (self : PyGIAsync) :
    (self.result = none → self.exception = none →
      async_await self = ({ self with _asyncio_future_blocking := true },
                          { self with _asyncio_future_blocking := true }) ∧
      async_iternext self = .yield self) ∧
    (async_done self = true → async_await self = (self, self)) ∧
    (∀ r, self.result = some r → self.exception = none →
      async_iternext self = .raised ⟨PyExc_StopIteration, r⟩) ∧
    (∀ e, self.exception = some e →
      async_iternext self = .raised ⟨PyExceptionInstance_Class e, e⟩) := by
  refine ⟨?_, ?_, ?_, ?_⟩
  · intro h1 h2
    simp [async_await, async_iternext, h1, h2]
  · intro h
    rw [async_done, Bool.or_eq_true] at h
    rcases h with h | h <;>
      simp [async_await, Option.isNone_iff_eq_none, Option.isSome_iff_ne_none.mp h]
  · intro r h1 h2
    simp [async_iternext, h1, h2]
  · intro e h
    cases hr : self.result <;> simp [async_iternext, h, hr]

/-- Witness for C7 at concrete pending, resolved and rejected futures. -/
theorem await_protocol_spec_witness :
    async_await pendingSelf = ({ pendingSelf with _asyncio_future_blocking := true },
                               { pendingSelf with _asyncio_future_blocking := true }) ∧
    async_iternext pendingSelf = .yield pendingSelf ∧
    async_iternext resolvedSelf = .raised ⟨PyExc_StopIteration, PyVal.int 42⟩ ∧
    async_iternext rejectedSelf =
      .raised ⟨PyVal.excClass "ValueError", PyVal.excInst "ValueError" (PyVal.str "bad")⟩ := by
  refine ⟨((await_protocol_spec pendingSelf).1 rfl rfl).1,
          ((await_protocol_spec pendingSelf).1 rfl rfl).2,
          (await_protocol_spec resolvedSelf).2.2.1 (PyVal.int 42) rfl rfl,
          ?_⟩
  have h := (await_protocol_spec rejectedSelf).2.2.2
    (PyVal.excInst "ValueError" (PyVal.str "bad")) rfl
  simpa [PyExceptionInstance_Class] using h

/-- C9 counterexample: the claim says the debug string renders exactly as
`Async(finish_func=<name>, done=<True|False>)`, but the format string at
src/gi/pygi-async.c:46 is `"gi.Async(finish_func=%s, done=%s)"`: on a concrete
pending future the rendered string carries the `gi.` prefix and differs from
the claimed form. -/
theorem async_repr_not_bare_Async :
    async_repr pendingSelf = "gi.Async(finish_func=Gio.File.copy_finish, done=False)" ∧
    async_repr pendingSelf ≠ "Async(finish_func=Gio.File.copy_finish, done=False)" := by
  constructor
  · rfl
  · decide

/-- C9 (amended): the debug string renders exactly as
`gi.Async(finish_func=<finisher-name>, done=<True|False>)`, where the done
field is `True` if and only if the future is in a terminal (result or
exception set) state. -/
theorem async_repr_renders_gi_async (self : PyGIAsync) :
    async_repr self =
      "gi.Async(finish_func=" ++ _pygi_g_base_info_get_fullname self.finish_func ++
        ", done=" ++ (if async_done self then "True" else "False") ++ ")" ∧
    (async_done self = true ↔ (self.result.isSome ∨ self.exception.isSome)) := by
  constructor
  · rfl
  · simp [async_done]

/-- C5: on a future already in a terminal state, `add_done_callback` hands the
captured callback to the loop's `call_soon` deferred-invocation primitive
before returning (whether or not that external call succeeds, the registry is
untouched and the callback itself is never entered inline — in the embedding
the hand-off is the returned `CallSoonInvocation` value, which `call_soon`
only defers); on a pending future it appends the captured `(callback,
context)` pair to the registry and schedules nothing. -/
theorem add_done_callback_schedules_or_appends
    (schedOk : PyGIAsyncCallback → Bool) (cur : PyVal) (self : PyGIAsync)
    (func : PyVal) (context : Option PyVal) :
    (async_done self = true →
      (async_add_done_callback schedOk cur self func context).1 = self ∧
      ((async_add_done_callback schedOk cur self func context).2 =
          .scheduled (call_soon self (captured_callback cur func context)) ∨
       (async_add_done_callback schedOk cur self func context).2 =
          .sched_error (call_soon self (captured_callback cur func context)))) ∧
    (async_done self = false →
      (async_add_done_callback schedOk cur self func context).2 = .appended ∧
      (async_add_done_callback schedOk cur self func context).1.callbacks =
        some (self.callbacks.getD [] ++ [captured_callback cur func context])) := by
  constructor
  · intro h
    rw [async_done] at h
    cases hs : schedOk (captured_callback cur func context) <;>
      simp [async_add_done_callback, h, hs]
  · intro h
    rw [async_done] at h
    cases hc : self.callbacks <;>
      simp [async_add_done_callback, h, hc]

/-- Witness for C5: a callback added to an already-resolved future is handed
to `call_soon` with the registry untouched; one added to a pending future is
appended to the registry. -/
theorem add_done_callback_schedules_or_appends_witness :
    (async_add_done_callback schedOkAll (PyVal.obj 5) c4self (PyVal.obj 8) none).1 = c4self ∧
    (async_add_done_callback schedOkAll (PyVal.obj 5) pendingSelf (PyVal.obj 8) none).2 =
      AddDoneOutcome.appended ∧
    (async_add_done_callback schedOkAll (PyVal.obj 5) pendingSelf (PyVal.obj 8) none).1.callbacks =
      some [⟨PyVal.obj 8, PyVal.obj 5⟩] := by
  have h1 := (add_done_callback_schedules_or_appends schedOkAll (PyVal.obj 5) c4self
    (PyVal.obj 8) none).1 (by decide)
  have h2 := (add_done_callback_schedules_or_appends schedOkAll (PyVal.obj 5) pendingSelf
    (PyVal.obj 8) none).2 (by decide)
  refine ⟨h1.1, h2.1, ?_⟩
  rw [h2.2]
  decide

/-- C8: at construction, a supplied cancellable failing the
`Gio.Cancellable` instance check makes `__init__` fail with a `TypeError`;
when no cancellable is supplied, a default one is constructed by calling the
`Gio.Cancellable` class with no arguments. -/
theorem init_validates_cancellable (rt : PyRuntime) (ff : PyGICallableInfo) :
    (∀ c, rt.isinst_cancellable c = 0 →
      async_init rt ff (some c) =
        .error ⟨PyExc_TypeError,
                PyVal.str "cancellable argument needs to be of type Gio.Cancellable"⟩) ∧
    (∀ l, rt.get_event_loop = .ok l →
      async_init rt ff none =
        .ok { finish_func := ff, cancellable := rt.callObject rt.cancellable_info [],
              loop := l, result := none, exception := none, callbacks := none,
              _asyncio_future_blocking := false }) := by
  constructor
  · intro c h
    simp [async_init, h]
  · intro l h
    simp [async_init, h]

/-- Witness for C8: under the concrete runtime `rt0`, a non-`Cancellable`
argument is rejected with `TypeError`, and omitting the argument stores the
no-argument construction `rt0.callObject rt0.cancellable_info [] = obj 100`. -/
theorem init_validates_cancellable_witness :
    async_init rt0 ⟨"Gio.Task.finish"⟩ (some (PyVal.obj 3)) =
      .error ⟨PyExc_TypeError,
              PyVal.str "cancellable argument needs to be of type Gio.Cancellable"⟩ ∧
    async_init rt0 ⟨"Gio.Task.finish"⟩ none =
      .ok { finish_func := ⟨"Gio.Task.finish"⟩, cancellable := PyVal.obj 100,
            loop := PyVal.obj 60, result := none, exception := none, callbacks := none,
            _asyncio_future_blocking := false } := by
  have h1 := (init_validates_cancellable rt0 ⟨"Gio.Task.finish"⟩).1 (PyVal.obj 3) (by decide)
  have h2 := (init_validates_cancellable rt0 ⟨"Gio.Task.finish"⟩).2 (PyVal.obj 60) rfl
  exact ⟨h1, by rw [h2]; rfl⟩

/-- Closed form of the removal scan: the remaining entries are those whose
comparison did not return `1`, the count is the number of entries whose
comparison returned `1`, and the error indicator ends up set iff some
comparison returned `-1`. -/
theorem remove_scan_eq (richcmp : PyVal → PyVal → Int) (fn : PyVal)
    (cbs : List PyGIAsyncCallback) :
    remove_scan richcmp fn cbs =
      (cbs.filter (fun cb => !(richcmp cb.func fn == 1)),
       ((cbs.filter (fun cb => richcmp cb.func fn == 1)).length : Int),
       cbs.any (fun cb => richcmp cb.func fn == -1)) := by
  induction cbs with
  | nil => simp [remove_scan]
  | cons cb rest ih =>
    by_cases h : richcmp cb.func fn = 1
    · have h2 : ¬ richcmp cb.func fn = -1 := by omega
      simp [remove_scan, ih, h, h2, List.filter_cons, List.any_cons]
    · by_cases h2 : richcmp cb.func fn = -1
      · simp [remove_scan, ih, h, h2, List.filter_cons, List.any_cons]
      · simp [remove_scan, ih, h, h2, List.filter_cons, List.any_cons]

/-- C6: `remove_done_callback (fn)` removes from the pending registry every
entry whose callback compares equal to `fn` under the host's rich equality
comparison (`richcmp _ fn = 1`, i.e. value equality via `Py_EQ`, not
identity), and returns the number of entries removed; with no matching entry
(in particular with a `NULL` registry) nothing is removed and `0` is
returned. -/
theorem remove_done_callback_removes_equal_and_counts
    (richcmp : PyVal → PyVal → Int) (self : PyGIAsync) (fn : PyVal) :
    (∀ cbs, self.callbacks = some cbs →
      (async_remove_done_callback richcmp self fn).1.callbacks =
        some (cbs.filter fun cb => !(richcmp cb.func fn == 1)) ∧
      (async_remove_done_callback richcmp self fn).2.1 =
        ((cbs.filter fun cb => richcmp cb.func fn == 1).length : Int) ∧
      ((∀ cb ∈ cbs, ¬ richcmp cb.func fn = 1) →
        (async_remove_done_callback richcmp self fn).2.1 = 0 ∧
        (async_remove_done_callback richcmp self fn).1.callbacks = some cbs)) ∧
    (self.callbacks = none →
      async_remove_done_callback richcmp self fn = (self, 0, false)) := by
  constructor
  · intro cbs h
    refine ⟨?_, ?_, ?_⟩
    · simp [async_remove_done_callback, h, remove_scan_eq]
    · simp [async_remove_done_callback, h, remove_scan_eq]
    · intro hnone
      have hfilter : cbs.filter (fun cb => richcmp cb.func fn == 1) = [] := by
        rw [List.filter_eq_nil_iff]
        intro a ha
        simpa using hnone a ha
      have hkeep : cbs.filter (fun cb => !(richcmp cb.func fn == 1)) = cbs := by
        rw [List.filter_eq_self]
        intro a ha
        simpa using hnone a ha
      constructor
      · simp [async_remove_done_callback, h, remove_scan_eq, hfilter]
      · simp [async_remove_done_callback, h, remove_scan_eq, hkeep]
  · intro h
    simp [async_remove_done_callback, h]

/-- Witness for C6: on a registry `[obj 4, obj 3, obj 4]` under plain value
equality, removing `obj 4` removes both matching entries and returns `2`,
while removing the unregistered `obj 9` removes nothing and returns `0`. -/
theorem remove_done_callback_removes_equal_and_counts_witness :
    (async_remove_done_callback richcmpEq c6self (PyVal.obj 4)).2.1 = 2 ∧
    (async_remove_done_callback richcmpEq c6self (PyVal.obj 4)).1.callbacks =
      some [⟨PyVal.obj 3, PyVal.obj 13⟩] ∧
    (async_remove_done_callback richcmpEq c6self (PyVal.obj 9)).2.1 = 0 ∧
    (async_remove_done_callback richcmpEq c6self (PyVal.obj 9)).1.callbacks =
      c6self.callbacks := by
  have h4 := (remove_done_callback_removes_equal_and_counts richcmpEq c6self (PyVal.obj 4)).1
    _ rfl
  have h9 := ((remove_done_callback_removes_equal_and_counts richcmpEq c6self (PyVal.obj 9)).1
    _ rfl).2.2 (by decide)
  refine ⟨?_, ?_, h9.1, ?_⟩
  · rw [h4.2.1]; decide
  · rw [h4.1]; decide
  · rw [h9.2]; rfl

/-- C10: if, while scanning the registry, the rich comparison between a
registered callback and the argument raises (`PyObject_RichCompareBool`
returns `-1`), that entry is treated as non-matching: it stays in the
registry and is not counted, and `remove_done_callback` still returns the
count of the entries that compared equal — a normal return, not an error
return (the pending error indicator is merely left set, recorded by the third
component). -/
theorem remove_done_callback_compare_error_entry_kept
    (richcmp : PyVal → PyVal → Int) (self : PyGIAsync) (fn : PyVal)
    (cbs : List PyGIAsyncCallback) (h : self.callbacks = some cbs)
    (cb : PyGIAsyncCallback) (hmem : cb ∈ cbs) (herr : richcmp cb.func fn = -1) :
    (∃ rem, (async_remove_done_callback richcmp self fn).1.callbacks = some rem ∧
       cb ∈ rem) ∧
    (async_remove_done_callback richcmp self fn).2.1 =
      ((cbs.filter fun c => richcmp c.func fn == 1).length : Int) ∧
    (async_remove_done_callback richcmp self fn).2.2 = true := by
  refine ⟨⟨cbs.filter (fun c => !(richcmp c.func fn == 1)), ?_, ?_⟩, ?_, ?_⟩
  · simp [async_remove_done_callback, h, remove_scan_eq]
  · rw [List.mem_filter]
    exact ⟨hmem, by simp [herr]⟩
  · simp [async_remove_done_callback, h, remove_scan_eq]
  · simp only [async_remove_done_callback, h, remove_scan_eq]
    rw [List.any_eq_true]
    exact ⟨cb, hmem, by simp [herr]⟩

/-- Witness for C10: under `richcmpRaising` the comparison of the `obj 3`
entry raises; removing `obj 4` keeps that entry, counts only the two equal
entries, and returns `2` normally. -/
theorem remove_done_callback_compare_error_entry_kept_witness :
    (∃ rem, (async_remove_done_callback richcmpRaising c6self (PyVal.obj 4)).1.callbacks =
        some rem ∧ (⟨PyVal.obj 3, PyVal.obj 13⟩ : PyGIAsyncCallback) ∈ rem) ∧
    (async_remove_done_callback richcmpRaising c6self (PyVal.obj 4)).2.1 = 2 := by
  have h := remove_done_callback_compare_error_entry_kept richcmpRaising c6self (PyVal.obj 4)
    _ rfl ⟨PyVal.obj 3, PyVal.obj 13⟩ (by decide) (by decide)
  exact ⟨h.1, by rw [h.2.1]; decide⟩

/-- C2: when the finish-function invocation inside the completion handler
raises, the future is rejected holding a concrete, materialized error
instance: the fetched exception class is instantiated (with the fetched value
when there is one, with no arguments when the finisher raised a bare class);
if that instantiation itself fails, the generic `TypeError` fallback instance
is stored instead — so the exception slot is always populated on the error
path; when the finisher returns normally, the future is resolved holding the
returned value. -/
theorem finish_cb_materializes_exception
    (callExc : PyVal → List PyVal → Option PyVal) (schedOk : PyGIAsyncCallback → Bool)
    (self : PyGIAsync) (hres : self.result = none) (hexc : self.exception = none) :
    (∀ v, (pygi_async_finish_cb callExc schedOk (.ok v) self).1.result = some v ∧
          (pygi_async_finish_cb callExc schedOk (.ok v) self).1.exception = none) ∧
    (∀ fe ev, finish_exc_value callExc fe = some ev →
      (pygi_async_finish_cb callExc schedOk (.error fe) self).1.exception = some ev ∧
      (pygi_async_finish_cb callExc schedOk (.error fe) self).1.result = none) ∧
    (∀ fe, finish_exc_value callExc fe = none →
      (pygi_async_finish_cb callExc schedOk (.error fe) self).1.exception =
        some invalid_exc_fallback) ∧
    (∀ fe, ∃ ev,
      (pygi_async_finish_cb callExc schedOk (.error fe) self).1.exception = some ev) := by
  refine ⟨?_, ?_, ?_, ?_⟩
  · intro v
    simp [pygi_async_finish_cb, hexc]
  · intro fe ev h
    simp [pygi_async_finish_cb, h, hres]
  · intro fe h
    simp [pygi_async_finish_cb, h]
  · intro fe
    cases h : finish_exc_value callExc fe with
    | none => exact ⟨invalid_exc_fallback, by simp [pygi_async_finish_cb, h]⟩
    | some ev => exact ⟨ev, by simp [pygi_async_finish_cb, h]⟩

/-- Witness for C2: a finisher returning `42` resolves the future with `42`;
a finisher raising `ValueError` with value `"bad"` rejects it with the
materialized `ValueError ("bad")` instance; when instantiation fails
(`callExcFail`), the generic `TypeError` fallback instance is stored. -/
theorem finish_cb_materializes_exception_witness :
    (pygi_async_finish_cb callExc0 schedOkAll (.ok (PyVal.int 42)) pendingSelf).1.result =
      some (PyVal.int 42) ∧
    (pygi_async_finish_cb callExc0 schedOkAll
        (.error ⟨PyVal.excClass "ValueError", some (PyVal.str "bad")⟩) pendingSelf).1.exception =
      some (PyVal.excInst "ValueError" (PyVal.str "bad")) ∧
    (pygi_async_finish_cb callExcFail schedOkAll
        (.error ⟨PyVal.excClass "ValueError", none⟩) pendingSelf).1.exception =
      some invalid_exc_fallback :=
  ⟨((finish_cb_materializes_exception callExc0 schedOkAll pendingSelf rfl rfl).1
      (PyVal.int 42)).1,
   ((finish_cb_materializes_exception callExc0 schedOkAll pendingSelf rfl rfl).2.1
      ⟨PyVal.excClass "ValueError", some (PyVal.str "bad")⟩
      (PyVal.excInst "ValueError" (PyVal.str "bad")) (by decide)).1,
   (finish_cb_materializes_exception callExcFail schedOkAll pendingSelf rfl rfl).2.2.1
      ⟨PyVal.excClass "ValueError", none⟩ (by decide)⟩

/-- C1 (code bug, concrete evaluation): on a future with two registered
callbacks, where scheduling the first fails and the second would succeed, the
completion handler reports the first failure (`PyErr_PrintEx`) — but because
`PyErr_PrintEx` clears the error indicator, the `!PyErr_Occurred ()` guard at
src/gi/pygi-async.c:383 passes again and the second callback is still handed
to `call_soon`, contradicting the claimed stop-after-first-failure policy
(and the comment at lines 379-382).  Resource release and full clearing of
the registry do hold: the failing entry is released and reported, and
`self->callbacks` ends `NULL`. -/
theorem finish_cb_sched_failure_does_not_stop_drain :
    ((pygi_async_finish_cb callExc0 c1schedOk (.ok (PyVal.int 5)) c1self).2.1.map
        (fun inv => inv.func_arg)) = [PyVal.obj 2] ∧
    (pygi_async_finish_cb callExc0 c1schedOk (.ok (PyVal.int 5)) c1self).2.2 = [c1cb1] ∧
    (pygi_async_finish_cb callExc0 c1schedOk (.ok (PyVal.int 5)) c1self).1.callbacks =
      none := by
  decide

/-- C4 (code bug, concrete evaluation): a callback registered on an
already-done future with an explicitly supplied context (`obj 99`) is handed
to the loop's `call_soon` with `kwargs = NULL` — the captured context is
dropped because `Py_CLEAR (kwargs)` at src/gi/pygi-async.c:121 runs before
`PyObject_Call` at line 123, so the context is never passed to the
scheduler. -/
theorem call_soon_drops_captured_context :
    (async_add_done_callback schedOkAll (PyVal.obj 5) c4self (PyVal.obj 7)
        (some (PyVal.obj 99))).2 =
      AddDoneOutcome.scheduled
        { loop := PyVal.obj 60, func_arg := PyVal.obj 7, self_arg := c4self,
          kwargs := none } := by
  decide
